import Mathlib

/-!
Verification of the BPD-002 probe driver core against its specification.

The definitions below are a shallow embedding of the Python sources:
- `bpd_core/registers.py` (`BasicProbeDriverRegisters`)
- `bpd_core/validation.py` (unit conversion helpers)
- `bpd_core/registry.py` (`ProbeRegistry`, `register_driver`)
- `bpd_drivers/ds1120a.py` (`DS1120ADriver`)
- `bpd_core/interface.py` (`BaseFIProbeDriver`)

Python `int` is modelled as `Int`.  Python `float` arithmetic appears twice:
`ns_to_cycles` / `cycles_to_ns` are the exact-rational idealization (`Rat`),
used where every float intermediate is exactly representable, and
`ns_to_cycles_float` / `cycles_to_ns_float` model the binary64 pipeline
bit-exactly (53-bit round-to-nearest, ties-to-even) over integers; Python
`int(x)` truncation toward zero is `pyInt` / `dyadicTrunc`.  A Python value written to a register is modelled by
the tagged union `RegValue` (`int` or `bool`), so the dynamic `isinstance`
checks of the boolean setters become pattern matches, and the Python coercion
of `bool` to `int` in comparisons is `RegValue.asInt`.  A setter that raises is
modelled as returning `Except.error`; since every Python setter assigns only
after validation succeeds, a raised error leaves the object unmodified, which
the `Except` model renders as returning no new state.
-/

/-- Python dynamic value written to a register: an `int` or a `bool`. -/
inductive RegValue where
  | VInt (n : Int)
  | VBool (b : Bool)
deriving DecidableEq, Repr

/-- Python coercion used when an `int`-field setter compares a value:
`bool` is a subclass of `int` with `True = 1`, `False = 0`. -/
def RegValue.asInt : RegValue → Int
  | .VInt n => n
  | .VBool b => if b then 1 else 0

/-- Rendering of the value inside a Python f-string error message. -/
def RegValue.pyRepr : RegValue → String
  | .VInt n => toString n
  | .VBool b => if b then "True" else "False"

/-- Python type name, as used by the boolean setters whose `TypeError`
message reports the type of the rejected value. -/
def RegValue.pyType : RegValue → String
  | .VInt _ => "int"
  | .VBool _ => "bool"

/-- Errors raised by the register bank: `ValueError` / `TypeError` from the
setters, and `AttributeError` from assigning to a property with no setter. -/
inductive RegError where
  | valueError (msg : String)
  | typeError (msg : String)
  | attributeError
deriving DecidableEq, Repr

/-- The 13 register fields of `BasicProbeDriverRegisters`, with YAML
defaults (`__init__`).  `probe_monitor_feedback` is the read-only
hardware-fed field. -/
structure Registers where
  trigger_wait_timeout : Int
  auto_rearm_enable : Bool
  fault_clear : Bool
  trig_out_voltage : Int
  trig_out_duration : Int
  intensity_voltage : Int
  intensity_duration : Int
  cooldown_interval : Int
  probe_monitor_feedback : Int
  monitor_enable : Bool
  monitor_threshold_voltage : Int
  monitor_expect_negative : Bool
  monitor_window_start : Int
  monitor_window_duration : Int
deriving DecidableEq, Repr

/-- `BasicProbeDriverRegisters.__init__`: all registers at YAML defaults. -/
def initRegisters : Registers where
  trigger_wait_timeout := 2
  auto_rearm_enable := false
  fault_clear := false
  trig_out_voltage := 0
  trig_out_duration := 100
  intensity_voltage := 0
  intensity_duration := 200
  cooldown_interval := 10
  probe_monitor_feedback := 0
  monitor_enable := true
  monitor_threshold_voltage := -200
  monitor_expect_negative := true
  monitor_window_start := 0
  monitor_window_duration := 5000

/-- Field names of the register bank. -/
inductive RegField where
  | trigger_wait_timeout
  | auto_rearm_enable
  | fault_clear
  | trig_out_voltage
  | trig_out_duration
  | intensity_voltage
  | intensity_duration
  | cooldown_interval
  | probe_monitor_feedback
  | monitor_enable
  | monitor_threshold_voltage
  | monitor_expect_negative
  | monitor_window_start
  | monitor_window_duration
deriving DecidableEq, Repr

/-- `trigger_wait_timeout.setter`: range 0-3600 seconds. -/
def set_trigger_wait_timeout (r : Registers) (value : RegValue) :
    Except RegError Registers :=
  if ¬ (0 ≤ value.asInt ∧ value.asInt ≤ 3600) then
    .error (.valueError
      ("trigger_wait_timeout must be 0-3600 seconds, got " ++ value.pyRepr))
  else
    .ok { r with trigger_wait_timeout := value.asInt }

/-- `auto_rearm_enable.setter`: `isinstance(value, bool)` check. -/
def set_auto_rearm_enable (r : Registers) (value : RegValue) :
    Except RegError Registers :=
  match value with
  | .VBool b => .ok { r with auto_rearm_enable := b }
  | v => .error (.typeError ("auto_rearm_enable must be bool, got " ++ v.pyType))

/-- `fault_clear.setter`: `isinstance(value, bool)` check. -/
def set_fault_clear (r : Registers) (value : RegValue) :
    Except RegError Registers :=
  match value with
  | .VBool b => .ok { r with fault_clear := b }
  | v => .error (.typeError ("fault_clear must be bool, got " ++ v.pyType))

/-- `trig_out_voltage.setter`: range -5000..5000 mV. -/
def set_trig_out_voltage (r : Registers) (value : RegValue) :
    Except RegError Registers :=
  if ¬ (-5000 ≤ value.asInt ∧ value.asInt ≤ 5000) then
    .error (.valueError
      ("trig_out_voltage must be -5000 to 5000 mV, got " ++ value.pyRepr))
  else
    .ok { r with trig_out_voltage := value.asInt }

/-- `trig_out_duration.setter`: range 20..50000 ns. -/
def set_trig_out_duration (r : Registers) (value : RegValue) :
    Except RegError Registers :=
  if ¬ (20 ≤ value.asInt ∧ value.asInt ≤ 50000) then
    .error (.valueError
      ("trig_out_duration must be 20-50000 ns, got " ++ value.pyRepr))
  else
    .ok { r with trig_out_duration := value.asInt }

/-- `intensity_voltage.setter`: range -5000..5000 mV. -/
def set_intensity_voltage (r : Registers) (value : RegValue) :
    Except RegError Registers :=
  if ¬ (-5000 ≤ value.asInt ∧ value.asInt ≤ 5000) then
    .error (.valueError
      ("intensity_voltage must be -5000 to 5000 mV, got " ++ value.pyRepr))
  else
    .ok { r with intensity_voltage := value.asInt }

/-- `intensity_duration.setter`: range 20..50000 ns. -/
def set_intensity_duration (r : Registers) (value : RegValue) :
    Except RegError Registers :=
  if ¬ (20 ≤ value.asInt ∧ value.asInt ≤ 50000) then
    .error (.valueError
      ("intensity_duration must be 20-50000 ns, got " ++ value.pyRepr))
  else
    .ok { r with intensity_duration := value.asInt }

/-- `cooldown_interval.setter`: range 1..500000 μs. -/
def set_cooldown_interval (r : Registers) (value : RegValue) :
    Except RegError Registers :=
  if ¬ (1 ≤ value.asInt ∧ value.asInt ≤ 500000) then
    .error (.valueError
      ("cooldown_interval must be 1-500000 μs, got " ++ value.pyRepr))
  else
    .ok { r with cooldown_interval := value.asInt }

/-- `monitor_enable.setter`: `isinstance(value, bool)` check. -/
def set_monitor_enable (r : Registers) (value : RegValue) :
    Except RegError Registers :=
  match value with
  | .VBool b => .ok { r with monitor_enable := b }
  | v => .error (.typeError ("monitor_enable must be bool, got " ++ v.pyType))

/-- `monitor_threshold_voltage.setter`: range -5000..5000 mV. -/
def set_monitor_threshold_voltage (r : Registers) (value : RegValue) :
    Except RegError Registers :=
  if ¬ (-5000 ≤ value.asInt ∧ value.asInt ≤ 5000) then
    .error (.valueError
      ("monitor_threshold_voltage must be -5000 to 5000 mV, got " ++ value.pyRepr))
  else
    .ok { r with monitor_threshold_voltage := value.asInt }

/-- `monitor_expect_negative.setter`: `isinstance(value, bool)` check. -/
def set_monitor_expect_negative (r : Registers) (value : RegValue) :
    Except RegError Registers :=
  match value with
  | .VBool b => .ok { r with monitor_expect_negative := b }
  | v => .error (.typeError ("monitor_expect_negative must be bool, got " ++ v.pyType))

/-- `monitor_window_start.setter`: range 0..2000000000 ns; note the source
performs no cross-field check against `monitor_window_duration`. -/
def set_monitor_window_start (r : Registers) (value : RegValue) :
    Except RegError Registers :=
  if ¬ (0 ≤ value.asInt ∧ value.asInt ≤ 2000000000) then
    .error (.valueError
      ("monitor_window_start must be 0-2000000000 ns, got " ++ value.pyRepr))
  else
    .ok { r with monitor_window_start := value.asInt }

/-- `monitor_window_duration.setter`: range 100..2000000000 ns; note the
source performs no cross-field check against `monitor_window_start`. -/
def set_monitor_window_duration (r : Registers) (value : RegValue) :
    Except RegError Registers :=
  if ¬ (100 ≤ value.asInt ∧ value.asInt ≤ 2000000000) then
    .error (.valueError
      ("monitor_window_duration must be 100-2000000000 ns, got " ++ value.pyRepr))
  else
    .ok { r with monitor_window_duration := value.asInt }

/-- `_set_probe_monitor_feedback` (Python name starts with an underscore):
internal hardware-update path, range -5000..5000 mV. -/
def set_probe_monitor_feedback_internal (r : Registers) (value : Int) :
    Except RegError Registers :=
  if ¬ (-5000 ≤ value ∧ value ≤ 5000) then
    .error (.valueError
      ("probe_monitor_feedback must be -5000 to 5000 mV, got " ++ toString value))
  else
    .ok { r with probe_monitor_feedback := value }

/-- Public write by field name.  `probe_monitor_feedback` is a property with
no setter, so assigning to it raises `AttributeError`. -/
def Registers.set (r : Registers) (f : RegField) (value : RegValue) :
    Except RegError Registers :=
  match f with
  | .trigger_wait_timeout => set_trigger_wait_timeout r value
  | .auto_rearm_enable => set_auto_rearm_enable r value
  | .fault_clear => set_fault_clear r value
  | .trig_out_voltage => set_trig_out_voltage r value
  | .trig_out_duration => set_trig_out_duration r value
  | .intensity_voltage => set_intensity_voltage r value
  | .intensity_duration => set_intensity_duration r value
  | .cooldown_interval => set_cooldown_interval r value
  | .probe_monitor_feedback => .error .attributeError
  | .monitor_enable => set_monitor_enable r value
  | .monitor_threshold_voltage => set_monitor_threshold_voltage r value
  | .monitor_expect_negative => set_monitor_expect_negative r value
  | .monitor_window_start => set_monitor_window_start r value
  | .monitor_window_duration => set_monitor_window_duration r value

/-- Public read by field name (the property getters). -/
def Registers.get (r : Registers) : RegField → RegValue
  | .trigger_wait_timeout => .VInt r.trigger_wait_timeout
  | .auto_rearm_enable => .VBool r.auto_rearm_enable
  | .fault_clear => .VBool r.fault_clear
  | .trig_out_voltage => .VInt r.trig_out_voltage
  | .trig_out_duration => .VInt r.trig_out_duration
  | .intensity_voltage => .VInt r.intensity_voltage
  | .intensity_duration => .VInt r.intensity_duration
  | .cooldown_interval => .VInt r.cooldown_interval
  | .probe_monitor_feedback => .VInt r.probe_monitor_feedback
  | .monitor_enable => .VBool r.monitor_enable
  | .monitor_threshold_voltage => .VInt r.monitor_threshold_voltage
  | .monitor_expect_negative => .VBool r.monitor_expect_negative
  | .monitor_window_start => .VInt r.monitor_window_start
  | .monitor_window_duration => .VInt r.monitor_window_duration

/-- State of the register bank after an attempted write: the new state on
success, the unmodified prior state when the setter raises (a Python setter
assigns only after its validation passes, so a raise mutates nothing). -/
def Registers.setKeep (r : Registers) (f : RegField) (value : RegValue) : Registers :=
  match r.set f value with
  | .ok r2 => r2
  | .error _ => r

/-- Likewise for the internal hardware-update path. -/
def Registers.feedbackKeep (r : Registers) (value : Int) : Registers :=
  match set_probe_monitor_feedback_internal r value with
  | .ok r2 => r2
  | .error _ => r

/-- Declared range of every field (table in registers.py docstrings):
the invariant claimed for the register bank. -/
def Registers.inRange (r : Registers) : Prop :=
  0 ≤ r.trigger_wait_timeout ∧ r.trigger_wait_timeout ≤ 3600 ∧
  -5000 ≤ r.trig_out_voltage ∧ r.trig_out_voltage ≤ 5000 ∧
  20 ≤ r.trig_out_duration ∧ r.trig_out_duration ≤ 50000 ∧
  -5000 ≤ r.intensity_voltage ∧ r.intensity_voltage ≤ 5000 ∧
  20 ≤ r.intensity_duration ∧ r.intensity_duration ≤ 50000 ∧
  1 ≤ r.cooldown_interval ∧ r.cooldown_interval ≤ 500000 ∧
  -5000 ≤ r.probe_monitor_feedback ∧ r.probe_monitor_feedback ≤ 5000 ∧
  -5000 ≤ r.monitor_threshold_voltage ∧ r.monitor_threshold_voltage ≤ 5000 ∧
  0 ≤ r.monitor_window_start ∧ r.monitor_window_start ≤ 2000000000 ∧
  100 ≤ r.monitor_window_duration ∧ r.monitor_window_duration ≤ 2000000000

instance (r : Registers) : Decidable r.inRange := by
  unfold Registers.inRange; infer_instance

/-- An operation on the register bank: a public write by field name, or the
internal hardware feedback update used by the FSM controller. -/
inductive RegOp where
  | setField (f : RegField) (v : RegValue)
  | feedbackUpdate (v : Int)
deriving DecidableEq, Repr

/-- Applying one operation: a raised validation error leaves the bank
unchanged. -/
def applyOp (r : Registers) (op : RegOp) : Registers :=
  match op with
  | .setField f v => r.setKeep f v
  | .feedbackUpdate v => r.feedbackKeep v

/-- Applying a sequence of operations in order. -/
def applyOps (r : Registers) (ops : List RegOp) : Registers :=
  ops.foldl applyOp r

/-- Whether a field has a public setter (`probe_monitor_feedback` does not). -/
def RegField.writable : RegField → Bool
  | .probe_monitor_feedback => false
  | _ => true

/-- Whether a field stores a boolean (the four `isinstance(value, bool)`
setters). -/
def RegField.isBoolField : RegField → Bool
  | .auto_rearm_enable | .fault_clear | .monitor_enable
  | .monitor_expect_negative => true
  | _ => false

/-- Lower bound of an integer field, per the table in section 3. -/
def RegField.lo : RegField → Int
  | .trigger_wait_timeout => 0
  | .trig_out_voltage => -5000
  | .trig_out_duration => 20
  | .intensity_voltage => -5000
  | .intensity_duration => 20
  | .cooldown_interval => 1
  | .probe_monitor_feedback => -5000
  | .monitor_threshold_voltage => -5000
  | .monitor_window_start => 0
  | .monitor_window_duration => 100
  | _ => 0

/-- Upper bound of an integer field, per the table in section 3. -/
def RegField.hi : RegField → Int
  | .trigger_wait_timeout => 3600
  | .trig_out_voltage => 5000
  | .trig_out_duration => 50000
  | .intensity_voltage => 5000
  | .intensity_duration => 50000
  | .cooldown_interval => 500000
  | .probe_monitor_feedback => 5000
  | .monitor_threshold_voltage => 5000
  | .monitor_window_start => 2000000000
  | .monitor_window_duration => 2000000000
  | _ => 0

/-- A value of the field's declared type lying in the declared range:
an integer in `lo..hi` for an integer field, any boolean for a boolean
field. -/
def RegField.declaredInRange (f : RegField) (v : RegValue) : Prop :=
  match v with
  | .VInt n => f.isBoolField = false ∧ f.lo ≤ n ∧ n ≤ f.hi
  | .VBool _ => f.isBoolField = true

/-- A value outside the field's declared range: an integer outside `lo..hi`
for an integer field, or any integer for a boolean field. -/
def RegField.declaredOutOfRange (f : RegField) (v : RegValue) : Prop :=
  match v with
  | .VInt n => f.isBoolField = true ∨ n < f.lo ∨ f.hi < n
  | .VBool _ => False

/-! ## Unit conversion helpers (`validation.py`)

The Python functions compute with `float`; here the arithmetic is exact
rational arithmetic, and Python `int(x)` truncation toward zero is `pyInt`.
At the calibration values of the spec every intermediate float is exactly
representable, so the rational model agrees with the float computation
there. -/

/-- Python `int(x)`: truncation toward zero. -/
def pyInt (q : ℚ) : ℤ := if 0 ≤ q then ⌊q⌋ else ⌈q⌉

/-- `ns_to_cycles(nanoseconds, clock_freq_mhz)`:
`clock_period_ns = 1000.0 / clock_freq_mhz; return int(nanoseconds / clock_period_ns)`. -/
def ns_to_cycles (nanoseconds : ℤ) (clock_freq_mhz : ℚ) : ℤ :=
  pyInt ((nanoseconds : ℚ) / (1000 / clock_freq_mhz))

/-- `cycles_to_ns(cycles, clock_freq_mhz)`:
`clock_period_ns = 1000.0 / clock_freq_mhz; return int(cycles * clock_period_ns)`. -/
def cycles_to_ns (cycles : ℤ) (clock_freq_mhz : ℚ) : ℤ :=
  pyInt ((cycles : ℚ) * (1000 / clock_freq_mhz))

/-! ## Binary64 model of the float computation (`validation.py`)

The Python functions above compute with IEEE-754 binary64 `float`s, whose
rounding can diverge from exact arithmetic (e.g. at 15 MHz the period
`1000.0 / 15.0` is not exactly representable).  The definitions below model
the float pipeline bit-exactly over integers: a binary64 value is a dyadic
pair `m * 2 ^ t`, and every arithmetic result is rounded to 53 significant
bits with round-to-nearest, ties-to-even - the IEEE default used by CPython.
The model covers the normal, non-overflowing range (exponents within the
fuel bound 1100, i.e. all magnitudes arising here) and non-negative inputs
with magnitude below `2 ^ 53` (so the int-to-float conversions in the
source are exact), which includes every register-representable time. -/

/-- Round `a / b` (with `b > 0`) to the nearest integer, ties to even:
the rounding IEEE-754 applies to the scaled significand. -/
def rneDiv (a b : ℤ) : ℤ :=
  let n := a / b
  let r := a - b * n
  if 2 * r < b then n
  else if b < 2 * r then n + 1
  else if n % 2 = 0 then n else n + 1

/-- Whether `2 ^ e ≤ a / b`, computed with integer arithmetic only. -/
def twoPowLe (e a b : ℤ) : Bool :=
  if 0 ≤ e then decide (b * 2 ^ e.toNat ≤ a) else decide (b ≤ a * 2 ^ (-e).toNat)

/-- Raise the exponent while `2 ^ (e + 1) ≤ a / b` (fuel-bounded). -/
def findExpUp : ℕ → ℤ → ℤ → ℤ → ℤ
  | 0, e, _, _ => e
  | fuel + 1, e, a, b => if twoPowLe (e + 1) a b then findExpUp fuel (e + 1) a b else e

/-- Lower the exponent until `2 ^ e ≤ a / b` (fuel-bounded). -/
def findExpDown : ℕ → ℤ → ℤ → ℤ → ℤ
  | 0, e, _, _ => e
  | fuel + 1, e, a, b => if twoPowLe e a b then e else findExpDown fuel (e - 1) a b

/-- The binary exponent of `a / b`: the `e` with `2 ^ e ≤ a / b < 2 ^ (e + 1)`
(for positive `a`, `b` of the magnitudes used here). -/
def findExp (a b : ℤ) : ℤ :=
  if twoPowLe 0 a b then findExpUp 1100 0 a b else findExpDown 1100 (-1) a b

/-- Round the non-negative rational `a / b` to binary64: the nearest
(ties-to-even) dyadic `m * 2 ^ t` with 53 significant bits.  Returns the
pair `(m, t)`. -/
def flMantExp (a b : ℤ) : ℤ × ℤ :=
  if a = 0 then (0, 0)
  else
    let e := findExp a b
    let m := if 0 ≤ 52 - e then rneDiv (a * 2 ^ (52 - e).toNat) b
             else rneDiv a (b * 2 ^ (e - 52).toNat)
    (m, e - 52)

/-- Python `int(x)` on the non-negative dyadic `m * 2 ^ t`. -/
def dyadicTrunc (m t : ℤ) : ℤ :=
  if 0 ≤ t then m * 2 ^ t.toNat else m / 2 ^ (-t).toNat

/-- The float computation of `ns_to_cycles` for an integer clock frequency
in MHz (`125.0`, `15.0`, ... are exact binary64 values):
`clock_period_ns = fl(1000.0 / f)`, then `int(fl(v / clock_period_ns))`,
each operation correctly rounded as in IEEE-754. -/
def ns_to_cycles_float (v : ℤ) (f : ℤ) : ℤ :=
  let p := flMantExp 1000 f
  let frac := if 0 ≤ -p.2 then (v * 2 ^ (-p.2).toNat, p.1) else (v, p.1 * 2 ^ p.2.toNat)
  let q := flMantExp frac.1 frac.2
  dyadicTrunc q.1 q.2

/-- The float computation of `cycles_to_ns` for an integer clock frequency
in MHz: `clock_period_ns = fl(1000.0 / f)`, then
`int(fl(c * clock_period_ns))`, each operation correctly rounded. -/
def cycles_to_ns_float (c : ℤ) (f : ℤ) : ℤ :=
  let p := flMantExp 1000 f
  let prod := if 0 ≤ p.2 then (c * p.1 * 2 ^ p.2.toNat, 1) else (c * p.1, 2 ^ (-p.2).toNat)
  let q := flMantExp prod.1 prod.2
  dyadicTrunc q.1 q.2

/-! ## DS1120A driver (`ds1120a.py`) and base driver (`interface.py`) -/

/-- Mutable state of `DS1120ADriver`.  `last_trigger_time` is `None` or a
wall-clock timestamp (`time.time()`), modelled as a rational passed in by
the environment. -/
structure DS1120ADriver where
  armed : Bool
  initialized : Bool
  voltage_v : ℚ
  pulse_width_ns : ℤ
  last_trigger_time : Option ℚ
deriving DecidableEq, Repr

/-- `DS1120ADriver.__init__`: not armed, not initialized, zero
configuration, no trigger recorded. -/
def DS1120ADriver.new : DS1120ADriver where
  armed := false
  initialized := false
  voltage_v := 0
  pulse_width_ns := 0
  last_trigger_time := none

/-- `DS1120ADriver.disarm`: unconditionally clears the armed flag; touches
nothing else and never raises. -/
def DS1120ADriver.disarm (d : DS1120ADriver) : DS1120ADriver :=
  { d with armed := false }

/-- `DS1120ADriver.trigger`: raises `RuntimeError` when not armed,
otherwise records `time.time()` (the `now` argument) as the last trigger
time and stays armed. -/
def DS1120ADriver.trigger (d : DS1120ADriver) (now : ℚ) :
    Except String DS1120ADriver :=
  if d.armed = false then
    .error "Probe not armed. Call arm() first."
  else
    .ok { d with last_trigger_time := some now }

/-- State after an attempted `trigger`: unchanged when a `RuntimeError` is
raised (the method assigns nothing before the armed check). -/
def DS1120ADriver.triggerKeep (d : DS1120ADriver) (now : ℚ) : DS1120ADriver :=
  match d.trigger now with
  | .ok d2 => d2
  | .error _ => d

/-- `BaseFIProbeDriver` (`interface.py`): the abstract base class keeps
only the armed flag. -/
structure BaseFIProbeDriver where
  armed : Bool
deriving DecidableEq, Repr

/-- `BaseFIProbeDriver.disarm`: sets `_armed = False`; never raises. -/
def BaseFIProbeDriver.disarm (b : BaseFIProbeDriver) : BaseFIProbeDriver :=
  { b with armed := false }

/-! ## Driver registry (`registry.py`)

`ProbeRegistry._drivers` is a Python dict keyed by `name.lower()`;
modelled as an association list where registering prepends, so the newest
registration for a key wins - the dict overwrite semantics. -/

/-- Python `str.lower()`: character-wise lowercasing of the name. -/
def pyLower (s : String) : String := String.mk (s.data.map Char.toLower)

/-- The registry map: lowercased name to driver class (abstract type `α`). -/
def Registry (α : Type) : Type := List (String × α)

/-- The initially empty registry. -/
def Registry.empty (α : Type) : Registry α := []

/-- `ProbeRegistry.register(name, driver_class)`:
`cls._drivers[name.lower()] = driver_class`. -/
def ProbeRegistry.register (name : String) (driver_class : α)
    (reg : Registry α) : Registry α :=
  (pyLower name, driver_class) :: reg

/-- `ProbeRegistry.get_driver(name)`: `cls._drivers.get(name.lower())`. -/
def ProbeRegistry.get_driver (name : String) (reg : Registry α) : Option α :=
  List.lookup (pyLower name) reg

/-- `register_driver(name)` decorator: registers the class and returns the
class itself unchanged. -/
def register_driver (name : String) (driver_class : α) (reg : Registry α) :
    Registry α × α :=
  (ProbeRegistry.register name driver_class reg, driver_class)

/-- Registry built from a list of `(name, class)` registrations applied in
order to the empty registry. -/
def buildRegistry (regs : List (String × α)) : Registry α :=
  regs.foldl (fun acc p => ProbeRegistry.register p.1 p.2 acc) (Registry.empty α)

/-- Whether an attempted register write succeeded (the setter did not raise). -/
def regWriteOk (e : Except RegError Registers) : Bool :=
  match e with
  | .ok _ => true
  | .error _ => false

/-- C5: the calibration pair is exact: at a 125 MHz clock,
`ns_to_cycles(1000, 125.0) == 125` and `cycles_to_ns(125, 125.0) == 1000`. -/
theorem C5_calibration_pair_exact :
    ns_to_cycles 1000 125 = 125 ∧ cycles_to_ns 125 125 = 1000 := by
  constructor <;> norm_num [ns_to_cycles, cycles_to_ns, pyInt]

/-- C3 counterexample: the register bank performs no cross-field check on
the monitor window.  From the default state, writing
`monitor_window_start = 2000000000` is accepted, then writing
`monitor_window_duration = 2000000000` is also accepted (not rejected),
leaving `monitor_window_start + monitor_window_duration = 4000000000` ns,
which exceeds the 2000000000-ns representable window cap. -/
theorem C3_cross_field_counterexample :
    regWriteOk (initRegisters.set .monitor_window_start (.VInt 2000000000)) = true
  ∧ regWriteOk ((initRegisters.setKeep .monitor_window_start
      (.VInt 2000000000)).set .monitor_window_duration (.VInt 2000000000)) = true
  ∧ ((initRegisters.setKeep .monitor_window_start (.VInt 2000000000)).setKeep
        .monitor_window_duration (.VInt 2000000000)).monitor_window_start
      + ((initRegisters.setKeep .monitor_window_start (.VInt 2000000000)).setKeep
        .monitor_window_duration (.VInt 2000000000)).monitor_window_duration
      = 4000000000
  ∧ (2000000000 : Int) < 4000000000 := by
  decide

/-- C3 amended: each monitor-window setter checks only its own per-field
bound; an in-range write is accepted regardless of the value the other
window field currently holds, so no write is ever rejected on cross-field
grounds. -/
theorem C3_amended_per_field_checks_only (r : Registers) (n : Int) :
    ((0 ≤ n ∧ n ≤ 2000000000) →
      r.set .monitor_window_start (.VInt n)
        = .ok { r with monitor_window_start := n })
  ∧ ((100 ≤ n ∧ n ≤ 2000000000) →
      r.set .monitor_window_duration (.VInt n)
        = .ok { r with monitor_window_duration := n }) := by
  constructor <;> intro h <;>
    simp [Registers.set, set_monitor_window_start, set_monitor_window_duration,
      RegValue.asInt, h.1, h.2]

/-- Witness for the amended C3 at a concrete input. -/
theorem C3_amended_per_field_checks_only_witness :
    initRegisters.set .monitor_window_start (.VInt 2000000000)
      = .ok { initRegisters with monitor_window_start := 2000000000 } :=
  (C3_amended_per_field_checks_only initRegisters 2000000000).1 (by decide)

/-- C8: disarming is always safe: from any driver state (armed or not,
initialized or not) `disarm` is total (never raises), afterwards the driver
reports not armed, and the configured voltage and pulse width are
unchanged; likewise `BaseFIProbeDriver.disarm` simply clears the flag. -/
theorem C8_disarm_always_safe (d : DS1120ADriver) (b : BaseFIProbeDriver) :
    d.disarm.armed = false
  ∧ d.disarm.voltage_v = d.voltage_v
  ∧ d.disarm.pulse_width_ns = d.pulse_width_ns
  ∧ d.disarm.initialized = d.initialized
  ∧ d.disarm.last_trigger_time = d.last_trigger_time
  ∧ b.disarm.armed = false := by
  simp [DS1120ADriver.disarm, BaseFIProbeDriver.disarm]

/-- C9: `trigger` raises `RuntimeError` if and only if the driver is not
armed; on the error path the driver state is unchanged; when armed it
succeeds, records the trigger time, and changes nothing else. -/
theorem C9_trigger_iff_armed (d : DS1120ADriver) (now : ℚ) :
    ((∃ msg, d.trigger now = .error msg) ↔ d.armed = false)
  ∧ (d.armed = false → d.triggerKeep now = d)
  ∧ (d.armed = true →
      d.trigger now = .ok { d with last_trigger_time := some now }) := by
  rcases hd : d.armed <;>
    simp [DS1120ADriver.trigger, DS1120ADriver.triggerKeep, hd]

/-- Witness for C9: a concrete armed driver triggers successfully at time 0. -/
theorem C9_trigger_iff_armed_witness :
    ({ DS1120ADriver.new with armed := true } : DS1120ADriver).trigger 0
      = .ok { DS1120ADriver.new with armed := true, last_trigger_time := some 0 } :=
  (C9_trigger_iff_armed { DS1120ADriver.new with armed := true } 0).2.2 rfl

/-- C7: `probe_monitor_feedback` is read-only at the public surface: a
public write raises `AttributeError` and changes nothing, for any value;
the internal hardware-update path rejects any value outside -5000..5000 mV
with a `ValueError` and leaves the stored value unchanged. -/
theorem C7_feedback_read_only (r : Registers) (v : RegValue) (w : Int) :
    r.set .probe_monitor_feedback v = .error .attributeError
  ∧ r.setKeep .probe_monitor_feedback v = r
  ∧ ((w < -5000 ∨ 5000 < w) →
      set_probe_monitor_feedback_internal r w
        = .error (.valueError
            ("probe_monitor_feedback must be -5000 to 5000 mV, got " ++ toString w))
      ∧ r.feedbackKeep w = r) := by
  refine ⟨rfl, rfl, ?_⟩
  intro hw
  have hcond : ¬ (-5000 ≤ w ∧ w ≤ 5000) := by omega
  constructor
  · simp [set_probe_monitor_feedback_internal, hcond]
  · simp [Registers.feedbackKeep, set_probe_monitor_feedback_internal, hcond]

/-- Witness for C7 at a concrete out-of-range feedback value. -/
theorem C7_feedback_read_only_witness :
    initRegisters.set .probe_monitor_feedback (.VInt 7) = .error .attributeError
  ∧ set_probe_monitor_feedback_internal initRegisters 6000
      = .error (.valueError
          ("probe_monitor_feedback must be -5000 to 5000 mV, got " ++ toString (6000 : Int)))
  ∧ initRegisters.feedbackKeep 6000 = initRegisters := by
  have h := C7_feedback_read_only initRegisters (.VInt 7) 6000
  exact ⟨h.1, (h.2.2 (by omega)).1, (h.2.2 (by omega)).2⟩

/-- Helper: a key absent from every registration and from the accumulator
is absent from the folded registry. -/
theorem lookup_foldl_register_eq_none {α : Type} (m : String)
    (regs : List (String × α)) (acc : Registry α)
    (hacc : List.lookup (pyLower m) acc = none)
    (h : ∀ p ∈ regs, pyLower m ≠ pyLower p.1) :
    List.lookup (pyLower m)
      (regs.foldl (fun a p => ProbeRegistry.register p.1 p.2 a) acc) = none := by
  induction regs generalizing acc with
  | nil => simpa using hacc
  | cons p ps ih =>
      simp only [List.foldl_cons]
      apply ih
      · have hne : pyLower m ≠ pyLower p.1 := h p (by simp)
        simp only [ProbeRegistry.register, List.lookup,
          beq_eq_false_iff_ne.mpr hne]
        exact hacc
      · intro q hq
        exact h q (by simp [hq])

/-- C10: registry lookup is case-insensitive and total: after
`register(name, cls)`, `get_driver(m)` returns `cls` for every `m` equal
to `name` up to letter case; the `register_driver` decorator returns the
class unchanged; `get_driver` returns `None` for every name never
registered. -/
theorem C10_registry_case_insensitive (α : Type) (name m : String) (cls : α)
    (reg : Registry α) (regs : List (String × α)) :
    (pyLower m = pyLower name →
      ProbeRegistry.get_driver m (ProbeRegistry.register name cls reg) = some cls)
  ∧ (register_driver name cls reg).2 = cls
  ∧ ((∀ p ∈ regs, pyLower m ≠ pyLower p.1) →
      ProbeRegistry.get_driver m (buildRegistry regs) = none) := by
  refine ⟨?_, rfl, ?_⟩
  · intro hm
    simp [ProbeRegistry.get_driver, ProbeRegistry.register, List.lookup, hm]
  · intro h
    exact lookup_foldl_register_eq_none m regs (Registry.empty α) rfl h

/-- Witness for C10: a concrete registration found under a different
letter case, and a concrete miss. -/
theorem C10_registry_case_insensitive_witness :
    ProbeRegistry.get_driver "DS1120A"
        (ProbeRegistry.register "ds1120a" 42 (Registry.empty Nat)) = some 42
  ∧ ProbeRegistry.get_driver "laser_fi" (buildRegistry [("ds1120a", 42)]) = none := by
  constructor
  · exact (C10_registry_case_insensitive Nat "ds1120a" "DS1120A" 42
      (Registry.empty Nat) []).1 (by decide)
  · exact (C10_registry_case_insensitive Nat "x" "laser_fi" 42
      (Registry.empty Nat) [("ds1120a", 42)]).2.2 (by decide)

/-- C4: every setter validates both type and numeric range: each of the
four boolean fields rejects an integer value with a `TypeError` naming the
offending type and leaves the register unchanged; each integer field
rejects any out-of-range value with a `ValueError` reporting the offending
value and the valid bound, leaving the register unchanged. -/
theorem C4_setters_validate_type_and_range (r : Registers) (n : Int) :
    (r.set .auto_rearm_enable (.VInt n)
        = .error (.typeError "auto_rearm_enable must be bool, got int")
      ∧ r.setKeep .auto_rearm_enable (.VInt n) = r)
  ∧ (r.set .fault_clear (.VInt n)
        = .error (.typeError "fault_clear must be bool, got int")
      ∧ r.setKeep .fault_clear (.VInt n) = r)
  ∧ (r.set .monitor_enable (.VInt n)
        = .error (.typeError "monitor_enable must be bool, got int")
      ∧ r.setKeep .monitor_enable (.VInt n) = r)
  ∧ (r.set .monitor_expect_negative (.VInt n)
        = .error (.typeError "monitor_expect_negative must be bool, got int")
      ∧ r.setKeep .monitor_expect_negative (.VInt n) = r)
  ∧ ((n < 0 ∨ 3600 < n) →
      r.set .trigger_wait_timeout (.VInt n)
        = .error (.valueError
            ("trigger_wait_timeout must be 0-3600 seconds, got " ++ toString n))
      ∧ r.setKeep .trigger_wait_timeout (.VInt n) = r)
  ∧ ((n < -5000 ∨ 5000 < n) →
      r.set .trig_out_voltage (.VInt n)
        = .error (.valueError
            ("trig_out_voltage must be -5000 to 5000 mV, got " ++ toString n))
      ∧ r.setKeep .trig_out_voltage (.VInt n) = r)
  ∧ ((n < 20 ∨ 50000 < n) →
      r.set .trig_out_duration (.VInt n)
        = .error (.valueError
            ("trig_out_duration must be 20-50000 ns, got " ++ toString n))
      ∧ r.setKeep .trig_out_duration (.VInt n) = r)
  ∧ ((n < -5000 ∨ 5000 < n) →
      r.set .intensity_voltage (.VInt n)
        = .error (.valueError
            ("intensity_voltage must be -5000 to 5000 mV, got " ++ toString n))
      ∧ r.setKeep .intensity_voltage (.VInt n) = r)
  ∧ ((n < 20 ∨ 50000 < n) →
      r.set .intensity_duration (.VInt n)
        = .error (.valueError
            ("intensity_duration must be 20-50000 ns, got " ++ toString n))
      ∧ r.setKeep .intensity_duration (.VInt n) = r)
  ∧ ((n < 1 ∨ 500000 < n) →
      r.set .cooldown_interval (.VInt n)
        = .error (.valueError
            ("cooldown_interval must be 1-500000 μs, got " ++ toString n))
      ∧ r.setKeep .cooldown_interval (.VInt n) = r)
  ∧ ((n < -5000 ∨ 5000 < n) →
      r.set .monitor_threshold_voltage (.VInt n)
        = .error (.valueError
            ("monitor_threshold_voltage must be -5000 to 5000 mV, got " ++ toString n))
      ∧ r.setKeep .monitor_threshold_voltage (.VInt n) = r)
  ∧ ((n < 0 ∨ 2000000000 < n) →
      r.set .monitor_window_start (.VInt n)
        = .error (.valueError
            ("monitor_window_start must be 0-2000000000 ns, got " ++ toString n))
      ∧ r.setKeep .monitor_window_start (.VInt n) = r)
  ∧ ((n < 100 ∨ 2000000000 < n) →
      r.set .monitor_window_duration (.VInt n)
        = .error (.valueError
            ("monitor_window_duration must be 100-2000000000 ns, got " ++ toString n))
      ∧ r.setKeep .monitor_window_duration (.VInt n) = r) := by
  refine ⟨⟨rfl, rfl⟩, ⟨rfl, rfl⟩, ⟨rfl, rfl⟩, ⟨rfl, rfl⟩,
    ?_, ?_, ?_, ?_, ?_, ?_, ?_, ?_, ?_⟩ <;>
  · intro h
    constructor <;>
      · simp only [Registers.set, Registers.setKeep, set_trigger_wait_timeout,
          set_trig_out_voltage, set_trig_out_duration, set_intensity_voltage,
          set_intensity_duration, set_cooldown_interval,
          set_monitor_threshold_voltage, set_monitor_window_start,
          set_monitor_window_duration, RegValue.asInt, RegValue.pyRepr]
        rw [if_pos (by omega)]

/-- Witness for C4 at a concrete rejected value. -/
theorem C4_setters_validate_type_and_range_witness :
    initRegisters.set .auto_rearm_enable (.VInt 5000)
      = .error (.typeError "auto_rearm_enable must be bool, got int")
  ∧ initRegisters.set .trigger_wait_timeout (.VInt 5000)
      = .error (.valueError
          ("trigger_wait_timeout must be 0-3600 seconds, got " ++ toString (5000 : Int)))
  ∧ initRegisters.setKeep .trigger_wait_timeout (.VInt 5000) = initRegisters := by
  have h := C4_setters_validate_type_and_range initRegisters 5000
  exact ⟨h.1.1, (h.2.2.2.2.1 (by omega)).1, (h.2.2.2.2.1 (by omega)).2⟩

/-- C1: for every writable field, a write of a declared-type value inside
the declared range succeeds and reading the field back returns exactly the
value written with no other field modified; a write outside the declared
range fails with an error and leaves the whole bank unchanged. -/
theorem C1_set_get_roundtrip (f : RegField) (v : RegValue) (r : Registers)
    (hw : f.writable = true) :
    (f.declaredInRange v →
      ∃ r2, r.set f v = .ok r2 ∧ r2.get f = v ∧
        ∀ g : RegField, g ≠ f → r2.get g = r.get g)
  ∧ (f.declaredOutOfRange v →
      regWriteOk (r.set f v) = false ∧ r.setKeep f v = r) := by
  constructor
  · intro hin
    cases v with
    | VBool b =>
        cases f <;>
          simp only [RegField.declaredInRange, RegField.isBoolField] at hin <;>
          first
            | exact absurd hin (by decide)
            | (refine ⟨_, rfl, rfl, ?_⟩
               rintro g hg
               cases g <;> simp_all [Registers.get])
    | VInt n =>
        obtain ⟨hbf, hlo, hhi⟩ := hin
        cases f <;>
          simp_all [RegField.isBoolField, RegField.lo, RegField.hi,
            RegField.writable, Registers.set, set_trigger_wait_timeout,
            set_trig_out_voltage, set_trig_out_duration, set_intensity_voltage,
            set_intensity_duration, set_cooldown_interval,
            set_monitor_threshold_voltage, set_monitor_window_start,
            set_monitor_window_duration, RegValue.asInt, Registers.get] <;>
          (rintro g hg; cases g <;> simp_all [Registers.get])
  · intro hout
    cases v with
    | VBool b => exact hout.elim
    | VInt n =>
        simp only [RegField.declaredOutOfRange] at hout
        cases f <;>
          simp_all [RegField.isBoolField, RegField.lo, RegField.hi,
            RegField.writable] <;>
          first
            | exact ⟨rfl, rfl⟩
            | (constructor <;>
                · simp only [regWriteOk, Registers.set, Registers.setKeep,
                    set_trigger_wait_timeout, set_trig_out_voltage,
                    set_trig_out_duration, set_intensity_voltage,
                    set_intensity_duration, set_cooldown_interval,
                    set_monitor_threshold_voltage, set_monitor_window_start,
                    set_monitor_window_duration, RegValue.asInt]
                  rw [if_pos (by omega)])

/-- Witness for C1: a concrete in-range write to `trig_out_voltage` reads
back exactly, and a concrete out-of-range write is rejected. -/
theorem C1_set_get_roundtrip_witness :
    (∃ r2, initRegisters.set .trig_out_voltage (.VInt 1234) = .ok r2 ∧
      r2.get .trig_out_voltage = .VInt 1234 ∧
      ∀ g : RegField, g ≠ .trig_out_voltage → r2.get g = initRegisters.get g)
  ∧ regWriteOk (initRegisters.set .trig_out_voltage (.VInt 9999)) = false
  ∧ initRegisters.setKeep .trig_out_voltage (.VInt 9999) = initRegisters := by
  refine ⟨?_, ?_, ?_⟩
  · exact (C1_set_get_roundtrip .trig_out_voltage (.VInt 1234) initRegisters
      rfl).1 ⟨rfl, by decide, by decide⟩
  · exact ((C1_set_get_roundtrip .trig_out_voltage (.VInt 9999) initRegisters
      rfl).2 (Or.inr (Or.inr (by decide)))).1
  · exact ((C1_set_get_roundtrip .trig_out_voltage (.VInt 9999) initRegisters
      rfl).2 (Or.inr (Or.inr (by decide)))).2

/-- Helper for C2: the kept state after a write is in range provided the
prior state is and every successful write result is. -/
theorem setKeep_inRange_of {r : Registers} {f : RegField} {v : RegValue}
    (h : r.inRange) (hok : ∀ r2, r.set f v = .ok r2 → r2.inRange) :
    (r.setKeep f v).inRange := by
  unfold Registers.setKeep
  cases hs : r.set f v with
  | ok r2 => exact hok r2 hs
  | error e => exact h

/-- Helper for C2: one public write preserves the range invariant. -/
theorem setKeep_preserves_inRange {r : Registers} (h : r.inRange)
    (f : RegField) (v : RegValue) : (r.setKeep f v).inRange := by
  refine setKeep_inRange_of h ?_
  intro r2 heq
  rcases v with ⟨n⟩ | ⟨b⟩ <;> [skip; cases b] <;> cases f <;>
    simp only [Registers.set, set_trigger_wait_timeout, set_auto_rearm_enable,
      set_fault_clear, set_trig_out_voltage, set_trig_out_duration,
      set_intensity_voltage, set_intensity_duration, set_cooldown_interval,
      set_monitor_enable, set_monitor_threshold_voltage,
      set_monitor_expect_negative, set_monitor_window_start,
      set_monitor_window_duration, RegValue.asInt] at heq <;>
    first
      | exact Except.noConfusion heq
      | (cases heq; simp_all [Registers.inRange]; try omega; done)
      | (split at heq <;>
          first
            | exact Except.noConfusion heq
            | (cases heq; simp_all [Registers.inRange]; try omega; done))

/-- Helper for C2: one internal feedback update preserves the invariant. -/
theorem feedbackKeep_preserves_inRange {r : Registers} (h : r.inRange)
    (v : Int) : (r.feedbackKeep v).inRange := by
  unfold Registers.feedbackKeep
  cases hs : set_probe_monitor_feedback_internal r v with
  | error e => exact h
  | ok r2 =>
      simp only [set_probe_monitor_feedback_internal] at hs
      split at hs
      · simp at hs
      · cases hs
        simp_all [Registers.inRange]

/-- Helper for C2: any operation preserves the invariant. -/
theorem applyOp_preserves_inRange {r : Registers} (h : r.inRange)
    (op : RegOp) : (applyOp r op).inRange := by
  cases op with
  | setField f v => exact setKeep_preserves_inRange h f v
  | feedbackUpdate v => exact feedbackKeep_preserves_inRange h v

/-- C2: range invariant of the register bank: the defaults satisfy every
declared range, and any sequence of public writes and internal feedback
updates starting from the fresh bank keeps every field in range. -/
theorem C2_range_invariant :
    initRegisters.inRange
  ∧ ∀ ops : List RegOp, (applyOps initRegisters ops).inRange := by
  have hgen : ∀ (ops : List RegOp) (r : Registers), r.inRange →
      (applyOps r ops).inRange := by
    intro ops
    induction ops with
    | nil => intro r h; exact h
    | cons op ops ih =>
        intro r h
        exact ih _ (applyOp_preserves_inRange h op)
  exact ⟨by decide, fun ops => hgen ops initRegisters (by decide)⟩

/-- Helper: `twoPowLe` decides `b * 2 ^ e ≤ a` over the rationals. -/
theorem twoPowLe_iff (e a b : ℤ) (hb : 0 < b) :
    twoPowLe e a b = true ↔ (b : ℚ) * 2 ^ e ≤ (a : ℚ) := by
  unfold twoPowLe
  split
  · next he =>
      rw [decide_eq_true_iff, ← Int.toNat_of_nonneg he, zpow_natCast]
      constructor
      · intro h
        exact_mod_cast h
      · intro h
        exact_mod_cast h
  · next he =>
      rw [decide_eq_true_iff]
      set k := (-e).toNat with hk
      have ht : e = -(k : ℤ) := by omega
      have hpow : (0 : ℚ) < 2 ^ k := by positivity
      rw [ht, zpow_neg, zpow_natCast, ← div_eq_mul_inv, div_le_iff₀ hpow]
      constructor
      · intro h
        exact_mod_cast h
      · intro h
        exact_mod_cast h

/-- Helper: upward exponent search brackets `a / b` when given a valid
lower start and enough fuel. -/
theorem findExpUp_bracket (fuel : ℕ) (e a b : ℤ) (hb : 0 < b)
    (hlo : (b : ℚ) * 2 ^ e ≤ a) (hhi : (a : ℚ) < b * 2 ^ (e + (fuel : ℤ) + 1)) :
    (b : ℚ) * 2 ^ (findExpUp fuel e a b) ≤ a ∧
      (a : ℚ) < b * 2 ^ (findExpUp fuel e a b + 1) := by
  induction fuel generalizing e with
  | zero =>
      refine ⟨hlo, ?_⟩
      push_cast at hhi
      simpa using hhi
  | succ n ih =>
      simp only [findExpUp]
      split
      · next hcond =>
          apply ih (e + 1)
          · exact (twoPowLe_iff _ _ _ hb).mp hcond
          · push_cast at hhi
            rw [show e + 1 + (n : ℤ) + 1 = e + ((n : ℤ) + 1) + 1 from by ring]
            exact hhi
      · next hcond =>
          refine ⟨hlo, ?_⟩
          have h2 : ¬ ((b : ℚ) * 2 ^ (e + 1) ≤ a) := fun h =>
            hcond ((twoPowLe_iff (e + 1) a b hb).mpr h)
          exact lt_of_not_le h2

/-- Helper: downward exponent search brackets `a / b` when given a valid
upper start and enough fuel. -/
theorem findExpDown_bracket (fuel : ℕ) (e a b : ℤ) (hb : 0 < b)
    (hhi : (a : ℚ) < b * 2 ^ (e + 1)) (hlo : (b : ℚ) * 2 ^ (e - (fuel : ℤ)) ≤ a) :
    (b : ℚ) * 2 ^ (findExpDown fuel e a b) ≤ a ∧
      (a : ℚ) < b * 2 ^ (findExpDown fuel e a b + 1) := by
  induction fuel generalizing e with
  | zero =>
      simp only [findExpDown]
      refine ⟨?_, hhi⟩
      push_cast at hlo
      simpa using hlo
  | succ n ih =>
      simp only [findExpDown]
      split
      · next hcond => exact ⟨(twoPowLe_iff _ _ _ hb).mp hcond, hhi⟩
      · next hcond =>
          apply ih (e - 1)
          · have h2 : ¬ ((b : ℚ) * 2 ^ e ≤ a) := fun h =>
              hcond ((twoPowLe_iff e a b hb).mpr h)
            rw [show e - 1 + 1 = e from by ring]
            exact lt_of_not_le h2
          · push_cast at hlo
            rw [show e - 1 - (n : ℤ) = e - ((n : ℤ) + 1) from by ring]
            exact hlo

/-- Helper: `findExp` brackets `a / b` for magnitudes within the fuel
range (double exponents never leave it). -/
theorem findExp_bracket (a b : ℤ) (hb : 0 < b)
    (hlo : (b : ℚ) * 2 ^ (-(1100 : ℤ)) ≤ a) (hhi : (a : ℚ) < b * 2 ^ (1100 : ℤ)) :
    (b : ℚ) * 2 ^ (findExp a b) ≤ a ∧ (a : ℚ) < b * 2 ^ (findExp a b + 1) := by
  have hb0 : (0 : ℚ) < b := by exact_mod_cast hb
  unfold findExp
  split
  · next hc =>
      apply findExpUp_bracket 1100 0 a b hb ((twoPowLe_iff 0 a b hb).mp hc)
      refine hhi.trans_le ?_
      apply mul_le_mul_of_nonneg_left _ hb0.le
      exact zpow_le_zpow_right₀ one_le_two (by norm_num)
  · next hc =>
      apply findExpDown_bracket 1100 (-1) a b hb
      · have h2 : ¬ ((b : ℚ) * 2 ^ (0 : ℤ) ≤ a) := fun h =>
          hc ((twoPowLe_iff 0 a b hb).mpr h)
        simpa using lt_of_not_le h2
      · refine le_trans ?_ hlo
        apply mul_le_mul_of_nonneg_left _ hb0.le
        exact zpow_le_zpow_right₀ one_le_two (by norm_num)

/-- Helper: rounding an exact quotient returns the quotient itself. -/
theorem rneDiv_mul_cancel (b k : ℤ) (hb : 0 < b) : rneDiv (b * k) b = k := by
  have hdiv : b * k / b = k := Int.mul_ediv_cancel_left k (by omega)
  simp [rneDiv, hdiv, hb]

/-- Helper: truncating a non-positive-exponent dyadic value is the floor
of the rational it denotes. -/
theorem dyadicTrunc_floor (m t : ℤ) (ht : t ≤ -1) :
    dyadicTrunc m t = ⌊(m : ℚ) * 2 ^ t⌋ := by
  unfold dyadicTrunc
  rw [if_neg (by omega)]
  set k := (-t).toNat with hk
  have ht' : t = -(k : ℤ) := by omega
  rw [ht', zpow_neg, zpow_natCast, ← div_eq_mul_inv]
  rw [show ((2 : ℚ) ^ k) = ((2 ^ k : ℕ) : ℚ) from by push_cast; ring]
  rw [Rat.floor_intCast_div_natCast]
  rw [show (((2 ^ k : ℕ)) : ℤ) = (2 : ℤ) ^ k from by push_cast; ring]

/-- Helper: unfolding `flMantExp` in the low-exponent regime. -/
theorem flMantExp_low (a b : ℤ) (ha : a ≠ 0) (hle : 0 ≤ 52 - findExp a b) :
    flMantExp a b
      = (rneDiv (a * 2 ^ ((52 - findExp a b).toNat)) b, findExp a b - 52) := by
  simp only [flMantExp]
  rw [if_neg ha, if_pos hle]

/-- Helper: rounding a quotient that is already a 53-bit representable
dyadic value `c * 2 ^ s` returns it exactly. -/
theorem flMantExp_eq_of_representable (a b c s : ℤ)
    (ha : 0 < a) (hb : 0 < b) (hc : 0 < c) (hc2 : c < 2 ^ 52)
    (hs1 : -1000 ≤ s) (hs2 : s ≤ 0)
    (hval : (a : ℚ) = (b : ℚ) * ((c : ℚ) * 2 ^ s)) :
    ∃ m t, flMantExp a b = (m, t) ∧ 0 < m ∧ t ≤ -1 ∧
      (m : ℚ) * 2 ^ t = (c : ℚ) * 2 ^ s := by
  have hb0 : (0 : ℚ) < b := by exact_mod_cast hb
  have hc0 : (0 : ℚ) < c := by exact_mod_cast hc
  have hc1 : (1 : ℚ) ≤ c := by exact_mod_cast hc
  have hcq2 : (c : ℚ) < 2 ^ (52 : ℤ) := by
    rw [show (52 : ℤ) = ((52 : ℕ) : ℤ) from rfl, zpow_natCast]
    exact_mod_cast hc2
  have hspos : (0 : ℚ) < 2 ^ s := zpow_pos (by norm_num) s
  have hlo : (b : ℚ) * 2 ^ (-(1100 : ℤ)) ≤ a := by
    rw [hval]
    apply mul_le_mul_of_nonneg_left _ hb0.le
    calc (2 : ℚ) ^ (-(1100 : ℤ)) ≤ 2 ^ s :=
          zpow_le_zpow_right₀ one_le_two (by omega)
      _ ≤ c * 2 ^ s := le_mul_of_one_le_left hspos.le hc1
  have hhi : (a : ℚ) < b * 2 ^ (1100 : ℤ) := by
    rw [hval]
    apply mul_lt_mul_of_pos_left _ hb0
    calc (c : ℚ) * 2 ^ s ≤ c * 2 ^ (0 : ℤ) := by
          apply mul_le_mul_of_nonneg_left _ hc0.le
          exact zpow_le_zpow_right₀ one_le_two (by omega)
      _ = c := by norm_num
      _ < 2 ^ (52 : ℤ) := hcq2
      _ ≤ 2 ^ (1100 : ℤ) := zpow_le_zpow_right₀ one_le_two (by norm_num)
  obtain ⟨hbr1, hbr2⟩ := findExp_bracket a b hb hlo hhi
  set e := findExp a b with he
  have hv1 : (2 : ℚ) ^ e ≤ c * 2 ^ s := by
    have h := hbr1
    rw [hval] at h
    exact le_of_mul_le_mul_left h hb0
  have hv2 : (c : ℚ) * 2 ^ s < 2 ^ (e + 1) := by
    have h := hbr2
    rw [hval] at h
    exact lt_of_mul_lt_mul_left h hb0.le
  have hse : s ≤ e := by
    by_contra hlt
    push_neg at hlt
    have h1 : (2 : ℚ) ^ s ≤ c * 2 ^ s := le_mul_of_one_le_left hspos.le hc1
    have h2 : (2 : ℚ) ^ (e + 1) ≤ 2 ^ s :=
      zpow_le_zpow_right₀ one_le_two (by omega)
    exact absurd (h1.trans_lt (hv2.trans_le h2)) (lt_irrefl _)
  have hes : e ≤ s + 51 := by
    by_contra hlt
    push_neg at hlt
    have h1 : (c : ℚ) * 2 ^ s < 2 ^ (s + 52) := by
      rw [show s + 52 = 52 + s from by ring, zpow_add₀ (by norm_num : (2 : ℚ) ≠ 0)]
      exact mul_lt_mul_of_pos_right hcq2 hspos
    have h2 : (2 : ℚ) ^ (s + 52) ≤ 2 ^ e :=
      zpow_le_zpow_right₀ one_le_two (by omega)
    exact absurd ((h1.trans_le h2).trans_le hv1) (lt_irrefl _)
  have he51 : e ≤ 51 := by omega
  have h52e : ((52 - e).toNat : ℤ) = 52 - e := by omega
  have hs52e : ((s + 52 - e).toNat : ℤ) = s + 52 - e := by omega
  have hmain : a * 2 ^ ((52 - e).toNat) = b * (c * 2 ^ ((s + 52 - e).toNat)) := by
    have hq : ((a * 2 ^ ((52 - e).toNat) : ℤ) : ℚ)
        = ((b * (c * 2 ^ ((s + 52 - e).toNat)) : ℤ) : ℚ) := by
      push_cast
      rw [← zpow_natCast (2 : ℚ) ((52 - e).toNat),
        ← zpow_natCast (2 : ℚ) ((s + 52 - e).toNat), h52e, hs52e, hval]
      calc (b : ℚ) * ((c : ℚ) * 2 ^ s) * 2 ^ (52 - e)
          = b * (c * (2 ^ s * 2 ^ (52 - e))) := by ring
        _ = b * (c * 2 ^ (s + (52 - e))) := by
              rw [← zpow_add₀ (by norm_num : (2 : ℚ) ≠ 0)]
        _ = b * (c * 2 ^ (s + 52 - e)) := by
              rw [show s + (52 - e) = s + 52 - e from by ring]
    exact_mod_cast hq
  refine ⟨c * 2 ^ ((s + 52 - e).toNat), e - 52, ?_, by positivity, by omega, ?_⟩
  · rw [flMantExp_low a b (by omega) (by omega), ← he, hmain,
      rneDiv_mul_cancel _ _ hb]
  · push_cast
    rw [← zpow_natCast (2 : ℚ) ((s + 52 - e).toNat), hs52e, mul_assoc,
      ← zpow_add₀ (by norm_num : (2 : ℚ) ≠ 0),
      show s + 52 - e + (e - 52) = s from by ring]

/-- Helper: at 125 MHz the float conversion to cycles computes the exact
floor `v / 8` for every register-representable time. -/
theorem ns_to_cycles_float_125 (v : ℤ) (hv0 : 0 < v) (hv2 : v ≤ 2000000000) :
    ns_to_cycles_float v 125 = v / 8 := by
  have hgoal : ns_to_cycles_float v 125
      = dyadicTrunc (flMantExp (v * 2 ^ 49) 4503599627370496).1
          (flMantExp (v * 2 ^ 49) 4503599627370496).2 := rfl
  have hval125 : ((v * 2 ^ 49 : ℤ) : ℚ)
      = ((4503599627370496 : ℤ) : ℚ) * (((v : ℤ) : ℚ) * 2 ^ (-3 : ℤ)) := by
    have h8 : ((2 : ℚ) ^ (-3 : ℤ)) = 1 / 8 := by norm_num
    push_cast
    rw [h8]
    ring
  obtain ⟨m, t, hmt, hm, ht, hval⟩ :=
    flMantExp_eq_of_representable (v * 2 ^ 49) 4503599627370496 v (-3)
      (by positivity) (by norm_num) hv0
      (by have h : (2 : ℤ) ^ 52 = 4503599627370496 := by norm_num
          omega)
      (by norm_num) (by norm_num) hval125
  rw [hgoal, hmt, dyadicTrunc_floor m t ht, hval]
  rw [show ((2 : ℚ) ^ (-3 : ℤ)) = ((1 : ℚ) / 8) from by norm_num]
  rw [show ((v : ℚ) * (1 / 8)) = (v : ℚ) / ((8 : ℕ) : ℚ) from by push_cast; ring]
  rw [Rat.floor_intCast_div_natCast]
  norm_num

/-- Helper: at 125 MHz the float conversion back to nanoseconds is the
exact product `8 * c` for every cycle count that can arise here. -/
theorem cycles_to_ns_float_125 (c : ℤ) (hc0 : 0 ≤ c) (hc2 : c ≤ 250000000) :
    cycles_to_ns_float c 125 = 8 * c := by
  rcases eq_or_lt_of_le hc0 with hz | hpos
  · rw [← hz]
    decide
  · have hgoal : cycles_to_ns_float c 125
        = dyadicTrunc (flMantExp (c * 4503599627370496) (2 ^ 49)).1
            (flMantExp (c * 4503599627370496) (2 ^ 49)).2 := rfl
    have hval125 : ((c * 4503599627370496 : ℤ) : ℚ)
        = (((2 ^ 49 : ℤ)) : ℚ) * (((8 * c : ℤ) : ℚ) * 2 ^ (0 : ℤ)) := by
      push_cast
      norm_num
      ring
    obtain ⟨m, t, hmt, hm, ht, hval⟩ :=
      flMantExp_eq_of_representable (c * 4503599627370496) (2 ^ 49) (8 * c) 0
        (by positivity) (by positivity) (by omega)
        (by have h : (2 : ℤ) ^ 52 = 4503599627370496 := by norm_num
            omega)
        (by norm_num) (by norm_num) hval125
    rw [hgoal, hmt, dyadicTrunc_floor m t ht, hval]
    rw [show ((2 : ℚ) ^ (0 : ℤ)) = 1 from by norm_num]
    rw [show ((((8 * c : ℤ)) : ℚ) * 1) = (((8 * c : ℤ)) : ℚ) from by ring]
    exact Int.floor_intCast _

/-- C6 counterexample: the float implementation refutes the claimed floor
and round-trip laws.  At 15 MHz, 1000 ns is an exact multiple of the tick
period `1000 / 15` ns, yet the program computes
`ns_to_cycles(1000, 15.0) = 14` - not the floor 15 of the exact ratio -
and converting the 14 cycles back gives 933 ns, not 1000 ns: the round
trip on an exact multiple is not exact. -/
theorem C6_float_counterexample :
    (∃ k : ℤ, (1000 : ℚ) = k * (1000 / 15))
  ∧ ns_to_cycles_float 1000 15 = 14
  ∧ ⌊(1000 : ℚ) / (1000 / 15)⌋ = 15
  ∧ ns_to_cycles_float 1000 15 ≠ ⌊(1000 : ℚ) / (1000 / 15)⌋
  ∧ cycles_to_ns_float (ns_to_cycles_float 1000 15) 15 = 933
  ∧ cycles_to_ns_float (ns_to_cycles_float 1000 15) 15 ≠ 1000 := by
  have h1 : ns_to_cycles_float 1000 15 = 14 := by decide
  have h2 : ⌊(1000 : ℚ) / (1000 / 15)⌋ = 15 := by
    rw [show ((1000 : ℚ) / (1000 / 15)) = ((15 : ℤ) : ℚ) from by norm_num,
      Int.floor_intCast]
  have h3 : cycles_to_ns_float 14 15 = 933 := by decide
  refine ⟨⟨15, by norm_num⟩, h1, h2, ?_, ?_, ?_⟩
  · rw [h1, h2]
    decide
  · rw [h1]
    exact h3
  · rw [h1, h3]
    decide

/-- C6 (amended): at the default 125 MHz clock - where the tick period
8.0 ns and every intermediate of the float pipeline are exactly
representable in binary64 - the float conversion truncates toward zero
(floor of `v / (1000/125)` for non-negative values), coincides with the
exact-rational `ns_to_cycles` / `cycles_to_ns`, and the round trip over
the register-representable range 0..2000000000 ns is exact on every
multiple of the tick period and strictly lossy downward on every
non-multiple. -/
theorem C6_float_at_125MHz (v : ℤ) (hv0 : 0 ≤ v) (hv2 : v ≤ 2000000000) :
    ns_to_cycles_float v 125 = ⌊(v : ℚ) / (1000 / 125)⌋
  ∧ ns_to_cycles_float v 125 = ns_to_cycles v 125
  ∧ cycles_to_ns_float (ns_to_cycles_float v 125) 125
      = cycles_to_ns (ns_to_cycles_float v 125) 125
  ∧ ((∃ k : ℤ, (v : ℚ) = k * (1000 / 125)) →
      cycles_to_ns_float (ns_to_cycles_float v 125) 125 = v)
  ∧ ((¬ ∃ k : ℤ, (v : ℚ) = k * (1000 / 125)) →
      cycles_to_ns_float (ns_to_cycles_float v 125) 125 < v) := by
  have h8 : ((1000 : ℚ) / 125) = 8 := by norm_num
  have hfl : ns_to_cycles_float v 125 = v / 8 := by
    rcases eq_or_lt_of_le hv0 with hz | hpos
    · rw [← hz]
      decide
    · exact ns_to_cycles_float_125 v hpos hv2
  have hfloor : ⌊(v : ℚ) / (1000 / 125)⌋ = v / 8 := by
    rw [h8, show ((8 : ℚ)) = ((8 : ℕ) : ℚ) from by norm_num,
      Rat.floor_intCast_div_natCast]
    norm_num
  have hrat : ns_to_cycles v 125 = v / 8 := by
    unfold ns_to_cycles pyInt
    rw [if_pos]
    · exact hfloor
    · rw [h8]
      positivity
  have hc0 : 0 ≤ v / 8 := by omega
  have hc2 : v / 8 ≤ 250000000 := by omega
  have hback : cycles_to_ns_float (v / 8) 125 = 8 * (v / 8) :=
    cycles_to_ns_float_125 (v / 8) hc0 hc2
  have hbackrat : cycles_to_ns (v / 8) 125 = 8 * (v / 8) := by
    unfold cycles_to_ns pyInt
    rw [h8]
    rw [show (((v / 8 : ℤ)) : ℚ) * 8 = (((8 * (v / 8) : ℤ)) : ℚ) from by
      push_cast; ring]
    rw [if_pos (by positivity)]
    exact Int.floor_intCast _
  refine ⟨hfl.trans hfloor.symm, hfl.trans hrat.symm, ?_, ?_, ?_⟩
  · rw [hfl, hback, hbackrat]
  · rintro ⟨k, hk⟩
    rw [h8] at hk
    have hk2 : v = k * 8 := by exact_mod_cast hk
    rw [hfl, hback]
    omega
  · intro hnm
    have hndvd : ¬ ((8 : ℤ) ∣ v) := by
      rintro ⟨k, hk⟩
      apply hnm
      refine ⟨k, ?_⟩
      rw [h8, hk]
      push_cast
      ring
    rw [hfl, hback]
    omega

/-- Witness for the amended C6: at 125 MHz the round trip is exact at
1000 ns (a multiple of the 8 ns tick period) and strictly lossy at
1001 ns (not a multiple). -/
theorem C6_float_at_125MHz_witness :
    cycles_to_ns_float (ns_to_cycles_float 1000 125) 125 = 1000
  ∧ cycles_to_ns_float (ns_to_cycles_float 1001 125) 125 < 1001 := by
  constructor
  · exact (C6_float_at_125MHz 1000 (by norm_num) (by norm_num)).2.2.2.1
      ⟨125, by norm_num⟩
  · refine (C6_float_at_125MHz 1001 (by norm_num) (by norm_num)).2.2.2.2 ?_
    rintro ⟨k, hk⟩
    norm_num at hk
    have hk2 : (1001 : ℤ) = k * 8 := by exact_mod_cast hk
    omega
